import Mathlib

/-
Verification of the eq-lab-site audio engine (src/lib/audioEngine.ts and
src/unnamed/part_004) against its natural-language specification.

The TypeScript file src/lib/audioEngine.ts contains several revisions of the
module concatenated: revision 1 occupies lines 1-390 and revision 3 occupies
lines 683-1291.  Definitions below are shallow embeddings of those revisions:
namespace V1 models lines 1-390 (the revision all playback-state claims cite),
namespace V3 models the third revision's calculateMatchedGains (lines
1162-1179), and namespace P4 models the getCurrentTime variant of
src/unnamed/part_004 (lines 307-311).

JavaScript numbers are modelled by the type JsNum: a finite value carries an
exact rational (rounding of IEEE doubles is immaterial to every property
proved here: the claims concern clamping, NaN/Infinity propagation and small
integer arithmetic that doubles represent exactly), and the special values
Infinity, -Infinity and NaN are explicit constructors with JavaScript's
arithmetic semantics.
-/

namespace EqLab

/-- Model of a JavaScript number: exact finite rational, or one of the IEEE
special values +Infinity, -Infinity, NaN. -/
inductive JsNum where
  | fin (q : ℚ)
  | posInf
  | negInf
  | nan
deriving DecidableEq, Repr

namespace JsNum

/-- JavaScript isFinite. -/
def isFinite : JsNum → Bool
  | fin _ => true
  | _ => false

/-- JavaScript isNaN. -/
def isNaN : JsNum → Bool
  | nan => true
  | _ => false

/-- JavaScript addition on numbers. -/
def add : JsNum → JsNum → JsNum
  | nan, _ => nan
  | _, nan => nan
  | fin a, fin b => fin (a + b)
  | fin _, posInf => posInf
  | fin _, negInf => negInf
  | posInf, fin _ => posInf
  | negInf, fin _ => negInf
  | posInf, posInf => posInf
  | negInf, negInf => negInf
  | posInf, negInf => nan
  | negInf, posInf => nan

/-- JavaScript unary minus. -/
def neg : JsNum → JsNum
  | fin a => fin (-a)
  | posInf => negInf
  | negInf => posInf
  | nan => nan

/-- JavaScript subtraction. -/
def sub (a b : JsNum) : JsNum := add a (neg b)

/-- JavaScript division (signed zero is not modelled; the divisors appearing
in the embedded code are non-negative). -/
def div : JsNum → JsNum → JsNum
  | nan, _ => nan
  | _, nan => nan
  | fin a, fin b =>
      if b = 0 then (if a = 0 then nan else if 0 < a then posInf else negInf)
      else fin (a / b)
  | fin _, posInf => fin 0
  | fin _, negInf => fin 0
  | posInf, fin b => if 0 ≤ b then posInf else negInf
  | negInf, fin b => if 0 ≤ b then negInf else posInf
  | posInf, _ => nan
  | negInf, _ => nan

/-- JavaScript Math.min (NaN-propagating). -/
def jmin : JsNum → JsNum → JsNum
  | nan, _ => nan
  | _, nan => nan
  | fin a, fin b => fin (if a ≤ b then a else b)
  | fin a, posInf => fin a
  | posInf, fin b => fin b
  | _, negInf => negInf
  | negInf, _ => negInf
  | posInf, posInf => posInf

/-- JavaScript Math.max (NaN-propagating). -/
def jmax : JsNum → JsNum → JsNum
  | nan, _ => nan
  | _, nan => nan
  | fin a, fin b => fin (if a ≤ b then b else a)
  | fin a, negInf => fin a
  | negInf, fin b => fin b
  | _, posInf => posInf
  | posInf, _ => posInf
  | negInf, negInf => negInf

end JsNum

/-- Math.max(-12, Math.min(12, d)), the clamping pattern used by both
revisions of calculateMatchedGains. -/
def clamp12 (d : JsNum) : JsNum :=
  JsNum.jmax (JsNum.fin (-12)) (JsNum.jmin (JsNum.fin 12) d)

/-- The value is a finite number lying in the interval [-12, 12]. -/
def InClampRange (x : JsNum) : Prop :=
  ∃ q : ℚ, x = JsNum.fin q ∧ -12 ≤ q ∧ q ≤ 12

instance (x : JsNum) : Decidable (InClampRange x) := by
  unfold InClampRange
  cases x with
  | fin q =>
      refine decidable_of_iff (-12 ≤ q ∧ q ≤ 12) ?_
      constructor
      · rintro ⟨h1, h2⟩; exact ⟨q, rfl, h1, h2⟩
      · rintro ⟨r, hr, h1, h2⟩; cases hr; exact ⟨h1, h2⟩
  | posInf => exact isFalse (by rintro ⟨q, h, -, -⟩; cases h)
  | negInf => exact isFalse (by rintro ⟨q, h, -, -⟩; cases h)
  | nan => exact isFalse (by rintro ⟨q, h, -, -⟩; cases h)

/-- Model of JavaScript Array.prototype.map with the index callback argument,
arr.map((v, i) => f(i, v)), with k the index of the first element. -/
def jsMapIdx {α β : Type} (f : ℕ → α → β) : ℕ → List α → List β
  | _, [] => []
  | i, v :: vs => f i v :: jsMapIdx f (i + 1) vs

namespace V1

/-- src/lib/audioEngine.ts lines 339-343 (revision 1):
diff = t.map((v, i) => v - s[i]); avg = diff.reduce((a,b) => a+b, 0) / diff.length;
result = diff.map(d => Math.max(-12, Math.min(12, d - avg))).
Indexing past the end of s yields undefined, whose subtraction is NaN,
modelled by the getD default JsNum.nan. -/
def calculateMatchedGains (s t : List JsNum) : List JsNum :=
  let diff := jsMapIdx (fun i v => JsNum.sub v (s.getD i JsNum.nan)) 0 t
  let avg := JsNum.div (diff.foldl JsNum.add (JsNum.fin 0)) (JsNum.fin diff.length)
  diff.map (fun d => JsNum.jmax (JsNum.fin (-12)) (JsNum.jmin (JsNum.fin 12) (JsNum.sub d avg)))

end V1

namespace V3

/-- src/lib/audioEngine.ts lines 1162-1179 (revision 3): per-band delta
d = targetSpec[i] - sourceSpec[i] with isFinite(d) ? d : 0, average over the
!isNaN entries (guarded against an empty list), mean-centering with a second
non-finite fixup, then clamping to [-12, 12]. -/
def calculateMatchedGains (sourceSpec targetSpec : List JsNum) : List JsNum :=
  let diff := jsMapIdx (fun i s =>
    if (JsNum.sub (targetSpec.getD i JsNum.nan) s).isFinite
    then JsNum.sub (targetSpec.getD i JsNum.nan) s
    else JsNum.fin 0) 0 sourceSpec
  let validDiffs := diff.filter (fun d => !d.isNaN)
  let avgDiff :=
    if 0 < validDiffs.length then
      JsNum.div (validDiffs.foldl JsNum.add (JsNum.fin 0)) (JsNum.fin validDiffs.length)
    else JsNum.fin 0
  diff.map (fun d =>
    JsNum.jmax (JsNum.fin (-12)) (JsNum.jmin (JsNum.fin 12)
      (if (JsNum.sub d avgDiff).isFinite then JsNum.sub d avgDiff else JsNum.fin 0)))

/-- Modelled from the spec sentence for the EQ matcher: delta[i] =
target[i] - source[i] with any non-finite intermediate treated as a zero
contribution both in the value and in the mean computation; subtract the
mean of all (zero-substituted) deltas from every entry; clamp to [-12, 12].
Used as the reference pipeline the code is compared with in claim C4. -/
def computeMatchSpec (sourceSpec targetSpec : List JsNum) : List JsNum :=
  let diff := jsMapIdx (fun i s =>
    if (JsNum.sub (targetSpec.getD i JsNum.nan) s).isFinite
    then JsNum.sub (targetSpec.getD i JsNum.nan) s
    else JsNum.fin 0) 0 sourceSpec
  let avg :=
    if 0 < diff.length then
      JsNum.div (diff.foldl JsNum.add (JsNum.fin 0)) (JsNum.fin diff.length)
    else JsNum.fin 0
  diff.map (fun d => clamp12 (JsNum.sub d avg))

end V3

namespace V1

/-- src/lib/audioEngine.ts lines 1-3: the 10 fixed band center frequencies. -/
def EQ_FREQUENCIES : List ℚ :=
  [31.5, 63, 125, 250, 500, 1000, 2000, 4000, 8000, 16000]

/-- The module variable playbackMode: 'buffer' | 'stream' | 'none'. -/
inductive PlaybackMode where
  | buffer
  | stream
  | none
deriving DecidableEq, Repr

/-- A decoded AudioBuffer, abstracted to the only attribute the playback
state machine reads (duration in seconds). -/
structure AudioBuf where
  duration : ℚ
deriving DecidableEq, Repr

/-- The module-level mutable state of src/lib/audioEngine.ts lines 1-390.
Web Audio node objects are represented by the values the code stores into
them: filter gain targets, the master/reverb gain targets, and identities
(numeric ids) for created AudioBufferSourceNode objects so that stopping /
disconnecting a node is observable.  setTargetAtTime stores its target value
(the ~10 ms smoothing constant only shapes the transient).  Timers scheduled
with setTimeout are numeric ids in activeTimers; clearTimeout removes an id,
and firing consumes it.  ctxTime is audioContext.currentTime, advanced only
by the environment (tick). -/
structure EngineState where
  ctxInitialized : Bool
  ctxTime : ℚ
  filterGains : List ℚ
  reverbDryGain : ℚ
  reverbWetGain : ℚ
  masterGain : ℚ
  source : Option ℕ
  nextSourceId : ℕ
  stoppedSources : List ℕ
  disconnectedSources : List ℕ
  streamSrc : Option String
  streamPlaying : Bool
  mediaTime : ℚ
  mediaDuration : ℚ
  currentBuffer : Option ℚ
  startTime : ℚ
  offsetTime : ℚ
  isPlayingInternal : Bool
  stopTimeout : Option ℕ
  activeTimers : List ℕ
  nextTimerId : ℕ
  playbackMode : PlaybackMode
deriving DecidableEq, Repr

/-- The state at module load: every node reference null, startTime = 0,
offsetTime = 0, isPlayingInternal = false, stopTimeout = null,
playbackMode = 'none'. -/
def initialState : EngineState where
  ctxInitialized := false
  ctxTime := 0
  filterGains := []
  reverbDryGain := 0
  reverbWetGain := 0
  masterGain := 0
  source := none
  nextSourceId := 0
  stoppedSources := []
  disconnectedSources := []
  streamSrc := none
  streamPlaying := false
  mediaTime := 0
  mediaDuration := 0
  currentBuffer := none
  startTime := 0
  offsetTime := 0
  isPlayingInternal := false
  stopTimeout := none
  activeTimers := []
  nextTimerId := 0
  playbackMode := PlaybackMode.none

/-- initContext (lines 58-134): idempotent — when audioContext already
exists only a suspended context is resumed; otherwise the graph is built:
one peaking filter per EQ_FREQUENCIES entry with gain 0, and gain nodes at
their Web Audio default value 1. -/
def initContext (st : EngineState) : EngineState :=
  if st.ctxInitialized then st
  else { st with
    ctxInitialized := true
    filterGains := EQ_FREQUENCIES.map (fun _ => 0)
    reverbDryGain := 1
    reverbWetGain := 1
    masterGain := 1 }

/-- setEqGain (lines 355-357): if (filters[i] && audioContext)
filters[i].gain.setTargetAtTime(db, currentTime, 0.01).  The raw db value is
stored with no clamping. -/
def setEqGain (st : EngineState) (i : ℕ) (db : ℚ) : EngineState :=
  if i < st.filterGains.length ∧ st.ctxInitialized
  then { st with filterGains := st.filterGains.set i db }
  else st

/-- setVolume (lines 364-366). -/
def setVolume (st : EngineState) (v : ℚ) : EngineState :=
  if st.ctxInitialized then { st with masterGain := v } else st

/-- setReverbDry (lines 358-360). -/
def setReverbDry (st : EngineState) (v : ℚ) : EngineState :=
  if st.ctxInitialized then { st with reverbDryGain := v } else st

/-- setReverbWet (lines 361-363). -/
def setReverbWet (st : EngineState) (v : ℚ) : EngineState :=
  if st.ctxInitialized then { st with reverbWetGain := v } else st

/-- eq.forEach((g, i) => setEqGain(i, g)) as performed by playBuffer and
playStream, starting at index i. -/
def applyEqGains : EngineState → ℕ → List ℚ → EngineState
  | st, _, [] => st
  | st, i, g :: gs => applyEqGains (setEqGain st i g) (i + 1) gs

/-- immediateStop (lines 255-260): clear any pending stop timer, stop and
disconnect the buffer source, detach the stream element (pause, src = "",
load), and drop the playing flag. -/
def immediateStop (st : EngineState) : EngineState :=
  let st1 := match st.stopTimeout with
    | some tid => { st with activeTimers := st.activeTimers.erase tid, stopTimeout := none }
    | none => st
  let st2 := match st1.source with
    | some sid => { st1 with
        stoppedSources := sid :: st1.stoppedSources
        disconnectedSources := sid :: st1.disconnectedSources
        source := none }
    | none => st1
  let st3 := if st2.ctxInitialized
    then { st2 with streamPlaying := false, streamSrc := some "" }
    else st2
  { st3 with isPlayingInternal := false }

/-- playBuffer (lines 195-223): no-op unless the graph exists; otherwise
force-stop the previous session, record the buffer/offset/start clock,
create and connect a fresh source node, apply volume, per-band gains and
reverb levels, start the source, and mark the buffer session active. -/
def playBuffer (st : EngineState) (buffer : AudioBuf) (startAt volume : ℚ)
    (eq : List ℚ) (rd rw : ℚ) : EngineState :=
  if st.ctxInitialized = false then st
  else
    let st1 := immediateStop st
    let st2 := { st1 with
      currentBuffer := some buffer.duration
      offsetTime := startAt
      startTime := st1.ctxTime
      source := some st1.nextSourceId
      nextSourceId := st1.nextSourceId + 1 }
    let st3 := setVolume st2 volume
    let st4 := applyEqGains st3 0 eq
    let st5 := setReverbDry st4 rd
    let st6 := setReverbWet st5 rw
    { st6 with isPlayingInternal := true, playbackMode := PlaybackMode.buffer }

/-- playStream (lines 225-253): no-op unless the graph exists; otherwise
force-stop the previous session, drop the decoded buffer, apply the FX
parameters, point the stream element at the url and start it (its position
becomes startAt once playback begins), and mark the stream session
active. -/
def playStream (st : EngineState) (url : String) (startAt volume : ℚ)
    (eq : List ℚ) (rd rw : ℚ) : EngineState :=
  if st.ctxInitialized = false then st
  else
    let st1 := immediateStop st
    let st2 := { st1 with currentBuffer := none, offsetTime := startAt }
    let st3 := setVolume st2 volume
    let st4 := applyEqGains st3 0 eq
    let st5 := setReverbDry st4 rd
    let st6 := setReverbWet st5 rw
    { st6 with
      streamSrc := some url
      streamPlaying := true
      mediaTime := if 0 < startAt then startAt else 0
      isPlayingInternal := true
      playbackMode := PlaybackMode.stream }

/-- stop (lines 262-268): clearTimeout on any pending stop timer, clear the
playing flag, ramp the master gain target to 0, and schedule a fresh
teardown timer (fadeTime only sets the real-time delay, which the discrete
model abstracts away). -/
def stop (st : EngineState) (fadeTime : ℚ) : EngineState :=
  let st1 := match st.stopTimeout with
    | some tid => { st with activeTimers := st.activeTimers.erase tid }
    | none => st
  let st2 := { st1 with isPlayingInternal := false }
  let st3 := if st2.ctxInitialized then { st2 with masterGain := 0 } else st2
  { st3 with
    stopTimeout := some st3.nextTimerId
    activeTimers := st3.nextTimerId :: st3.activeTimers
    nextTimerId := st3.nextTimerId + 1 }

/-- The event-loop firing of the timeout scheduled by stop (line 267): a
timer runs only if it is still scheduled (never cleared, never already
fired); its callback is immediateStop() followed by playbackMode = 'none'. -/
def fireStopTimer (st : EngineState) (tid : ℕ) : EngineState :=
  if tid ∈ st.activeTimers then
    let st1 := immediateStop { st with activeTimers := st.activeTimers.erase tid }
    { st1 with playbackMode := PlaybackMode.none }
  else st

/-- getIsPlaying (line 345). -/
def getIsPlaying (st : EngineState) : Bool := st.isPlayingInternal

/-- getCurrentTime (lines 346-350): offsetTime when uninitialized; the
stream element's native position in stream mode; otherwise
(currentTime - startTime) + offsetTime while playing, else offsetTime. -/
def getCurrentTime (st : EngineState) : ℚ :=
  if st.ctxInitialized = false then st.offsetTime
  else if st.playbackMode = PlaybackMode.stream then st.mediaTime
  else if st.isPlayingInternal then st.ctxTime - st.startTime + st.offsetTime
  else st.offsetTime

/-- getDuration (lines 351-354). -/
def getDuration (st : EngineState) : ℚ :=
  if st.playbackMode = PlaybackMode.stream ∧ st.ctxInitialized then st.mediaDuration
  else st.currentBuffer.getD 0

/-- Environment action: the processing-context clock advances by dt and a
playing stream element advances with it. -/
def tick (st : EngineState) (dt : ℚ) : EngineState :=
  { st with
    ctxTime := st.ctxTime + dt
    mediaTime := if st.streamPlaying then st.mediaTime + dt else st.mediaTime }

/-- A play invocation: either playBuffer on a decoded buffer or playStream
on a url, with the shared parameter list (startAt, volume, eq, rd, rw). -/
inductive PlayRequest where
  | bufferReq (buffer : AudioBuf) (startAt volume : ℚ) (eq : List ℚ) (rd rw : ℚ)
  | streamReq (url : String) (startAt volume : ℚ) (eq : List ℚ) (rd rw : ℚ)
deriving DecidableEq, Repr

/-- Dispatch a play request to playBuffer or playStream. -/
def play : PlayRequest → EngineState → EngineState
  | PlayRequest.bufferReq buffer startAt volume eq rd rw, st =>
      playBuffer st buffer startAt volume eq rd rw
  | PlayRequest.streamReq url startAt volume eq rd rw, st =>
      playStream st url startAt volume eq rd rw

/-- Number of attached native playback resources: a live buffer source node
plus a playing stream element. -/
def activeSessions (st : EngineState) : ℕ :=
  (if st.source.isSome then 1 else 0) + (if st.streamPlaying then 1 else 0)

/-- The active session belongs to the given request: mode tag, attached
resource and payload all match the request. -/
def sessionMatches : PlayRequest → EngineState → Prop
  | PlayRequest.bufferReq buffer _ _ _ _ _, st =>
      st.playbackMode = PlaybackMode.buffer ∧ st.currentBuffer = some buffer.duration
      ∧ st.source.isSome = true ∧ st.streamPlaying = false
  | PlayRequest.streamReq url _ _ _ _ _, st =>
      st.playbackMode = PlaybackMode.stream ∧ st.streamSrc = some url
      ∧ st.streamPlaying = true ∧ st.source = none

end V1

/-- clamp(x, lo, hi) over the rationals, as the spec phrases the band-gain
contract. -/
def clampQ (lo hi x : ℚ) : ℚ := max lo (min hi x)

namespace P4

/-- The slice of the src/unnamed/part_004 module state read by its
getCurrentTime (lines 307-311). -/
structure State where
  ctxInitialized : Bool
  isPlayingInternal : Bool
  offsetTime : ℚ
  ctxTime : ℚ
  startTime : ℚ
  currentBuffer : Option ℚ
deriving DecidableEq, Repr

/-- src/unnamed/part_004 lines 307-311: if (!isPlayingInternal ||
!audioContext) return offsetTime; else return Math.min(offsetTime +
(currentTime - startTime), currentBuffer?.duration || 0). -/
def getCurrentTime (st : State) : ℚ :=
  if st.isPlayingInternal = false ∨ st.ctxInitialized = false then st.offsetTime
  else min (st.offsetTime + (st.ctxTime - st.startTime)) (st.currentBuffer.getD 0)

end P4

namespace V1

/-- Events of the asynchronous getSpectrum routine (lines 304-337), in
execution order: an awaited requestAnimationFrame yield, an awaited
setTimeout yield, or the synchronous partial-DFT work for one sampled time
offset. -/
inductive SpecEv where
  | yieldFrame
  | yieldTimer
  | processOffset (i : ℕ)
deriving DecidableEq, Repr

/-- Line 310: const numSamples = isMobile ? 15 : 40. -/
def spectrumNumSamples (isMobile : Bool) : ℕ := if isMobile then 15 else 40

/-- The loop body for sampled offset i (lines 313-334): on mobile, await a
requestAnimationFrame yield and, every 5 segments, an extra setTimeout
yield; on desktop no await at all; then the synchronous per-band partial
DFT for this offset.  The yield structure does not inspect the buffer. -/
def spectrumIterEvents (isMobile : Bool) (i : ℕ) : List SpecEv :=
  (if isMobile then
      SpecEv.yieldFrame :: (if i % 5 = 0 then [SpecEv.yieldTimer] else [])
    else [])
    ++ [SpecEv.processOffset i]

/-- The full execution trace of getSpectrum: the loop for i in
[0, numSamples). -/
def getSpectrumTrace (isMobile : Bool) : List SpecEv :=
  (List.range (spectrumNumSamples isMobile)).flatMap (spectrumIterEvents isMobile)

/-- Whether an event is a cooperative suspension point. -/
def isYield : SpecEv → Bool
  | SpecEv.yieldFrame => true
  | SpecEv.yieldTimer => true
  | SpecEv.processOffset _ => false

end V1

section JsNumLemmas

open JsNum

lemma isFinite_iff {x : JsNum} : x.isFinite = true ↔ ∃ q, x = fin q := by
  cases x <;> simp [isFinite]

lemma sub_fin_fin (a b : ℚ) : sub (fin a) (fin b) = fin (a - b) := by
  simp [sub, neg, add, sub_eq_add_neg]

lemma foldl_add_fin :
    ∀ (l : List JsNum) (q : ℚ), (∀ x ∈ l, x.isFinite = true) →
      ∃ r : ℚ, l.foldl add (fin q) = fin r := by
  intro l
  induction l with
  | nil => intro q _; exact ⟨q, rfl⟩
  | cons x xs ih =>
      intro q h
      obtain ⟨a, ha⟩ := isFinite_iff.mp (h x (List.mem_cons_self x xs))
      subst ha
      exact ih (q + a) (fun y hy => h y (List.mem_cons_of_mem _ hy))

lemma div_fin_pos (a : ℚ) (n : ℕ) (hn : 0 < n) :
    div (fin a) (fin n) = fin (a / n) := by
  have : (n : ℚ) ≠ 0 := Nat.cast_ne_zero.mpr hn.ne'
  simp [div, this]

lemma clamp12_fin_inClampRange (q : ℚ) : InClampRange (clamp12 (fin q)) := by
  have h : clamp12 (fin q)
      = fin (if -12 ≤ (if 12 ≤ q then 12 else q) then (if 12 ≤ q then 12 else q) else -12) :=
    rfl
  rw [h]
  exact ⟨_, rfl, by split_ifs <;> linarith, by split_ifs <;> linarith⟩

lemma finite_not_isNaN {x : JsNum} (h : x.isFinite = true) : x.isNaN = false := by
  cases x <;> simp_all [isFinite, isNaN]

lemma mem_jsMapIdx_imp {α β : Type} (f : ℕ → α → β) :
    ∀ (k : ℕ) (l : List α) (x : β), x ∈ jsMapIdx f k l →
      ∃ i, ∃ h : i < l.length, x = f (k + i) (l.get ⟨i, h⟩) := by
  intro k l
  induction l generalizing k with
  | nil => intro x hx; cases hx
  | cons v vs ih =>
      intro x hx
      rcases List.mem_cons.mp hx with h | h
      · exact ⟨0, Nat.succ_pos _, by simpa using h⟩
      · obtain ⟨i, hi, hx⟩ := ih (k + 1) x h
        refine ⟨i + 1, Nat.succ_lt_succ hi, ?_⟩
        have hk : k + (i + 1) = k + 1 + i := by omega
        rw [hk]
        exact hx

lemma v3_diff_all_finite (sourceSpec targetSpec : List JsNum) :
    ∀ x ∈ jsMapIdx (fun i s =>
        if (JsNum.sub (targetSpec.getD i JsNum.nan) s).isFinite
        then JsNum.sub (targetSpec.getD i JsNum.nan) s
        else JsNum.fin 0) 0 sourceSpec, x.isFinite = true := by
  intro x hx
  obtain ⟨i, hi, hxi⟩ := mem_jsMapIdx_imp _ 0 sourceSpec x hx
  rw [hxi]
  split
  · next h => exact h
  · rfl

lemma avg_of_finite (D : List JsNum) (hfin : ∀ x ∈ D, x.isFinite = true) :
    (if 0 < D.length then
        JsNum.div (D.foldl JsNum.add (JsNum.fin 0)) (JsNum.fin D.length)
      else JsNum.fin 0).isFinite = true := by
  split
  · next hpos =>
      obtain ⟨r, hr⟩ := foldl_add_fin D 0 hfin
      rw [hr, div_fin_pos _ _ hpos]
      rfl
  · rfl

end JsNumLemmas

namespace V1

lemma applyEqGains_shape : ∀ (eq : List ℚ) (st : EngineState) (i : ℕ),
    applyEqGains st i eq = { st with filterGains := (applyEqGains st i eq).filterGains } := by
  intro eq
  induction eq with
  | nil => intro st i; rfl
  | cons g gs ih =>
      intro st i
      show applyEqGains (setEqGain st i g) (i + 1) gs
        = { st with filterGains := (applyEqGains (setEqGain st i g) (i + 1) gs).filterGains }
      unfold setEqGain
      split
      · exact ih _ _
      · exact ih _ _

@[simp] lemma applyEqGains_ctxInitialized (eq : List ℚ) (st : EngineState) (i : ℕ) :
    (applyEqGains st i eq).ctxInitialized = st.ctxInitialized := by
  rw [applyEqGains_shape eq st i]

@[simp] lemma applyEqGains_source (eq : List ℚ) (st : EngineState) (i : ℕ) :
    (applyEqGains st i eq).source = st.source := by
  rw [applyEqGains_shape eq st i]

@[simp] lemma applyEqGains_stopTimeout (eq : List ℚ) (st : EngineState) (i : ℕ) :
    (applyEqGains st i eq).stopTimeout = st.stopTimeout := by
  rw [applyEqGains_shape eq st i]

@[simp] lemma applyEqGains_activeTimers (eq : List ℚ) (st : EngineState) (i : ℕ) :
    (applyEqGains st i eq).activeTimers = st.activeTimers := by
  rw [applyEqGains_shape eq st i]

@[simp] lemma applyEqGains_nextTimerId (eq : List ℚ) (st : EngineState) (i : ℕ) :
    (applyEqGains st i eq).nextTimerId = st.nextTimerId := by
  rw [applyEqGains_shape eq st i]

@[simp] lemma applyEqGains_nextSourceId (eq : List ℚ) (st : EngineState) (i : ℕ) :
    (applyEqGains st i eq).nextSourceId = st.nextSourceId := by
  rw [applyEqGains_shape eq st i]

@[simp] lemma applyEqGains_stoppedSources (eq : List ℚ) (st : EngineState) (i : ℕ) :
    (applyEqGains st i eq).stoppedSources = st.stoppedSources := by
  rw [applyEqGains_shape eq st i]

@[simp] lemma applyEqGains_disconnectedSources (eq : List ℚ) (st : EngineState) (i : ℕ) :
    (applyEqGains st i eq).disconnectedSources = st.disconnectedSources := by
  rw [applyEqGains_shape eq st i]

@[simp] lemma applyEqGains_streamSrc (eq : List ℚ) (st : EngineState) (i : ℕ) :
    (applyEqGains st i eq).streamSrc = st.streamSrc := by
  rw [applyEqGains_shape eq st i]

@[simp] lemma applyEqGains_streamPlaying (eq : List ℚ) (st : EngineState) (i : ℕ) :
    (applyEqGains st i eq).streamPlaying = st.streamPlaying := by
  rw [applyEqGains_shape eq st i]

@[simp] lemma applyEqGains_currentBuffer (eq : List ℚ) (st : EngineState) (i : ℕ) :
    (applyEqGains st i eq).currentBuffer = st.currentBuffer := by
  rw [applyEqGains_shape eq st i]

@[simp] lemma applyEqGains_isPlayingInternal (eq : List ℚ) (st : EngineState) (i : ℕ) :
    (applyEqGains st i eq).isPlayingInternal = st.isPlayingInternal := by
  rw [applyEqGains_shape eq st i]

@[simp] lemma applyEqGains_playbackMode (eq : List ℚ) (st : EngineState) (i : ℕ) :
    (applyEqGains st i eq).playbackMode = st.playbackMode := by
  rw [applyEqGains_shape eq st i]

@[simp] lemma applyEqGains_mediaTime (eq : List ℚ) (st : EngineState) (i : ℕ) :
    (applyEqGains st i eq).mediaTime = st.mediaTime := by
  rw [applyEqGains_shape eq st i]

@[simp] lemma applyEqGains_ctxTime (eq : List ℚ) (st : EngineState) (i : ℕ) :
    (applyEqGains st i eq).ctxTime = st.ctxTime := by
  rw [applyEqGains_shape eq st i]

@[simp] lemma applyEqGains_startTime (eq : List ℚ) (st : EngineState) (i : ℕ) :
    (applyEqGains st i eq).startTime = st.startTime := by
  rw [applyEqGains_shape eq st i]

@[simp] lemma applyEqGains_offsetTime (eq : List ℚ) (st : EngineState) (i : ℕ) :
    (applyEqGains st i eq).offsetTime = st.offsetTime := by
  rw [applyEqGains_shape eq st i]

@[simp] lemma immediateStop_stopTimeout (st : EngineState) :
    (immediateStop st).stopTimeout = none := by
  unfold immediateStop
  cases h : st.stopTimeout <;> dsimp <;> cases h2 : st.source <;> dsimp <;> split <;> simp [h, h2]

@[simp] lemma immediateStop_source (st : EngineState) :
    (immediateStop st).source = none := by
  unfold immediateStop
  cases h : st.stopTimeout <;> dsimp <;> cases h2 : st.source <;> dsimp <;> split <;> simp [h, h2]

@[simp] lemma immediateStop_isPlayingInternal (st : EngineState) :
    (immediateStop st).isPlayingInternal = false := by
  unfold immediateStop
  cases h : st.stopTimeout <;> dsimp <;> cases h2 : st.source <;> dsimp <;> split <;> simp [h, h2]

@[simp] lemma immediateStop_ctxInitialized (st : EngineState) :
    (immediateStop st).ctxInitialized = st.ctxInitialized := by
  unfold immediateStop
  cases h : st.stopTimeout <;> dsimp <;> cases h2 : st.source <;> dsimp <;> split <;> simp [h, h2]

@[simp] lemma immediateStop_nextSourceId (st : EngineState) :
    (immediateStop st).nextSourceId = st.nextSourceId := by
  unfold immediateStop
  cases h : st.stopTimeout <;> dsimp <;> cases h2 : st.source <;> dsimp <;> split <;> simp [h, h2]

@[simp] lemma immediateStop_nextTimerId (st : EngineState) :
    (immediateStop st).nextTimerId = st.nextTimerId := by
  unfold immediateStop
  cases h : st.stopTimeout <;> dsimp <;> cases h2 : st.source <;> dsimp <;> split <;> simp [h, h2]

@[simp] lemma immediateStop_playbackMode (st : EngineState) :
    (immediateStop st).playbackMode = st.playbackMode := by
  unfold immediateStop
  cases h : st.stopTimeout <;> dsimp <;> cases h2 : st.source <;> dsimp <;> split <;> simp [h, h2]

@[simp] lemma immediateStop_currentBuffer (st : EngineState) :
    (immediateStop st).currentBuffer = st.currentBuffer := by
  unfold immediateStop
  cases h : st.stopTimeout <;> dsimp <;> cases h2 : st.source <;> dsimp <;> split <;> simp [h, h2]

@[simp] lemma immediateStop_ctxTime (st : EngineState) :
    (immediateStop st).ctxTime = st.ctxTime := by
  unfold immediateStop
  cases h : st.stopTimeout <;> dsimp <;> cases h2 : st.source <;> dsimp <;> split <;> simp [h, h2]

@[simp] lemma immediateStop_filterGains (st : EngineState) :
    (immediateStop st).filterGains = st.filterGains := by
  unfold immediateStop
  cases h : st.stopTimeout <;> dsimp <;> cases h2 : st.source <;> dsimp <;> split <;> simp [h, h2]

lemma immediateStop_streamPlaying (st : EngineState) (hinit : st.ctxInitialized = true) :
    (immediateStop st).streamPlaying = false := by
  unfold immediateStop
  cases h : st.stopTimeout <;> dsimp <;> cases h2 : st.source <;> dsimp <;> simp [hinit]

lemma immediateStop_activeTimers (st : EngineState) :
    (immediateStop st).activeTimers
      = st.stopTimeout.elim st.activeTimers (fun t => st.activeTimers.erase t) := by
  unfold immediateStop
  cases h : st.stopTimeout <;> dsimp <;> cases h2 : st.source <;> dsimp <;> split <;> simp [h, h2]

lemma immediateStop_stopped_mem (st : EngineState) (sid : ℕ) (h : st.source = some sid) :
    sid ∈ (immediateStop st).stoppedSources := by
  unfold immediateStop
  cases h1 : st.stopTimeout <;> dsimp <;> rw [h] <;> dsimp <;> split <;>
    exact List.mem_cons_self _ _

lemma immediateStop_disconnected_mem (st : EngineState) (sid : ℕ) (h : st.source = some sid) :
    sid ∈ (immediateStop st).disconnectedSources := by
  unfold immediateStop
  cases h1 : st.stopTimeout <;> dsimp <;> rw [h] <;> dsimp <;> split <;>
    exact List.mem_cons_self _ _

end V1

namespace V1

@[simp] lemma stop_stopTimeout (st : EngineState) (f : ℚ) :
    (stop st f).stopTimeout = some st.nextTimerId := by
  unfold stop
  cases h : st.stopTimeout <;> dsimp <;> split <;> simp [h]

@[simp] lemma stop_nextTimerId (st : EngineState) (f : ℚ) :
    (stop st f).nextTimerId = st.nextTimerId + 1 := by
  unfold stop
  cases h : st.stopTimeout <;> dsimp <;> split <;> simp [h]

@[simp] lemma stop_ctxInitialized (st : EngineState) (f : ℚ) :
    (stop st f).ctxInitialized = st.ctxInitialized := by
  unfold stop
  cases h : st.stopTimeout <;> dsimp <;> split <;> simp [h]

@[simp] lemma stop_isPlayingInternal (st : EngineState) (f : ℚ) :
    (stop st f).isPlayingInternal = false := by
  unfold stop
  cases h : st.stopTimeout <;> dsimp <;> split <;> simp [h]

@[simp] lemma stop_source (st : EngineState) (f : ℚ) :
    (stop st f).source = st.source := by
  unfold stop
  cases h : st.stopTimeout <;> dsimp <;> split <;> simp [h]

@[simp] lemma stop_playbackMode (st : EngineState) (f : ℚ) :
    (stop st f).playbackMode = st.playbackMode := by
  unfold stop
  cases h : st.stopTimeout <;> dsimp <;> split <;> simp [h]

@[simp] lemma stop_currentBuffer (st : EngineState) (f : ℚ) :
    (stop st f).currentBuffer = st.currentBuffer := by
  unfold stop
  cases h : st.stopTimeout <;> dsimp <;> split <;> simp [h]

@[simp] lemma stop_streamPlaying (st : EngineState) (f : ℚ) :
    (stop st f).streamPlaying = st.streamPlaying := by
  unfold stop
  cases h : st.stopTimeout <;> dsimp <;> split <;> simp [h]

@[simp] lemma stop_streamSrc (st : EngineState) (f : ℚ) :
    (stop st f).streamSrc = st.streamSrc := by
  unfold stop
  cases h : st.stopTimeout <;> dsimp <;> split <;> simp [h]

@[simp] lemma stop_nextSourceId (st : EngineState) (f : ℚ) :
    (stop st f).nextSourceId = st.nextSourceId := by
  unfold stop
  cases h : st.stopTimeout <;> dsimp <;> split <;> simp [h]

lemma stop_activeTimers (st : EngineState) (f : ℚ) :
    (stop st f).activeTimers
      = st.nextTimerId
          :: st.stopTimeout.elim st.activeTimers (fun t => st.activeTimers.erase t) := by
  unfold stop
  cases h : st.stopTimeout <;> dsimp <;> split <;> simp [h]

lemma play_establishes (req : PlayRequest) (st : EngineState)
    (hinit : st.ctxInitialized = true) :
    (play req st).ctxInitialized = true
    ∧ (play req st).stopTimeout = none
    ∧ (play req st).isPlayingInternal = true
    ∧ activeSessions (play req st) = 1
    ∧ sessionMatches req (play req st)
    ∧ (play req st).activeTimers = (immediateStop st).activeTimers
    ∧ (∀ sid, st.source = some sid →
        sid ∈ (play req st).stoppedSources ∧ sid ∈ (play req st).disconnectedSources)
    ∧ (∀ sid, (play req st).source = some sid →
        st.nextSourceId ≤ sid ∧ (play req st).nextSourceId = sid + 1) := by
  have hsp := immediateStop_streamPlaying st hinit
  cases req with
  | bufferReq buffer startAt volume eq rd rw =>
      refine ⟨?_, ?_, ?_, ?_, ?_, ?_, fun sid h => ⟨?_, ?_⟩, fun sid h => ?_⟩
      · simp [play, playBuffer, hinit, setVolume, setReverbDry, setReverbWet]
      · simp [play, playBuffer, hinit, setVolume, setReverbDry, setReverbWet]
      · simp [play, playBuffer, hinit, setVolume, setReverbDry, setReverbWet]
      · simp [activeSessions, play, playBuffer, hinit, setVolume, setReverbDry,
          setReverbWet, hsp]
      · simp [sessionMatches, play, playBuffer, hinit, setVolume, setReverbDry,
          setReverbWet, hsp]
      · simp [play, playBuffer, hinit, setVolume, setReverbDry, setReverbWet]
      · have hm := immediateStop_stopped_mem st sid h
        simp [play, playBuffer, hinit, setVolume, setReverbDry, setReverbWet, hm]
      · have hm := immediateStop_disconnected_mem st sid h
        simp [play, playBuffer, hinit, setVolume, setReverbDry, setReverbWet, hm]
      · simp [play, playBuffer, hinit, setVolume, setReverbDry, setReverbWet] at h ⊢
        omega
  | streamReq url startAt volume eq rd rw =>
      refine ⟨?_, ?_, ?_, ?_, ?_, ?_, fun sid h => ⟨?_, ?_⟩, fun sid h => ?_⟩
      · simp [play, playStream, hinit, setVolume, setReverbDry, setReverbWet]
      · simp [play, playStream, hinit, setVolume, setReverbDry, setReverbWet]
      · simp [play, playStream, hinit, setVolume, setReverbDry, setReverbWet]
      · simp [activeSessions, play, playStream, hinit, setVolume, setReverbDry,
          setReverbWet]
      · simp [sessionMatches, play, playStream, hinit, setVolume, setReverbDry,
          setReverbWet]
      · simp [play, playStream, hinit, setVolume, setReverbDry, setReverbWet]
      · have hm := immediateStop_stopped_mem st sid h
        simp [play, playStream, hinit, setVolume, setReverbDry, setReverbWet, hm]
      · have hm := immediateStop_disconnected_mem st sid h
        simp [play, playStream, hinit, setVolume, setReverbDry, setReverbWet, hm]
      · simp [play, playStream, hinit, setVolume, setReverbDry, setReverbWet] at h

end V1

/-- C3 counterexample: the revision-1 calculateMatchedGains (lines 339-343),
given the equal-length pair a = [NaN, 0] and b = [0, 0], returns [NaN, NaN];
its entries are NaN, not finite values in [-12, 12], so the claim that every
entry lies in [-12, 12] even for profiles with non-finite entries is false. -/
theorem C3_counterexample_nan_escapes_clamp :
    V1.calculateMatchedGains [JsNum.nan, JsNum.fin 0] [JsNum.fin 0, JsNum.fin 0]
        = [JsNum.nan, JsNum.nan]
    ∧ ([JsNum.nan, JsNum.fin 0] : List JsNum).length
        = ([JsNum.fin 0, JsNum.fin 0] : List JsNum).length
    ∧ ¬ InClampRange ((V1.calculateMatchedGains [JsNum.nan, JsNum.fin 0]
        [JsNum.fin 0, JsNum.fin 0]).getD 0 (JsNum.fin 0)) := by
  have hres : V1.calculateMatchedGains [JsNum.nan, JsNum.fin 0] [JsNum.fin 0, JsNum.fin 0]
      = [JsNum.nan, JsNum.nan] := by
    norm_num [V1.calculateMatchedGains, jsMapIdx, JsNum.sub, JsNum.add, JsNum.neg,
      JsNum.div, JsNum.jmin, JsNum.jmax]
  refine ⟨hres, rfl, ?_⟩
  rw [hres]
  decide

/-- C3 amended: for equal-length profiles all of whose entries are finite,
every entry of the revision-1 calculateMatchedGains is a finite value in
[-12, 12] (the original claim also admitted non-finite entries, on which the
code produces NaN entries; see the counterexample). -/
theorem C3_matched_gains_bounded (s t : List JsNum)
    (hlen : s.length = t.length)
    (hs : ∀ x ∈ s, x.isFinite = true) (ht : ∀ x ∈ t, x.isFinite = true) :
    ∀ y ∈ V1.calculateMatchedGains s t, InClampRange y := by
  intro y hy
  simp only [V1.calculateMatchedGains] at hy
  rw [List.mem_map] at hy
  obtain ⟨d, hd, hyd⟩ := hy
  have hdiff : ∀ x ∈ jsMapIdx (fun i v => JsNum.sub v (s.getD i JsNum.nan)) 0 t,
      x.isFinite = true := by
    intro x hx
    obtain ⟨i, hi, hxi⟩ := mem_jsMapIdx_imp _ 0 t x hx
    have hilen : i < s.length := by rw [hlen]; exact hi
    have hgetD : s.getD (0 + i) JsNum.nan = s.get ⟨i, hilen⟩ := by
      rw [Nat.zero_add, List.getD_eq_getElem?_getD, List.getElem?_eq_getElem hilen]
      rfl
    obtain ⟨qv, hqv⟩ := isFinite_iff.mp (ht _ (List.get_mem t i hi))
    obtain ⟨qs, hqs⟩ := isFinite_iff.mp (hs _ (List.get_mem s i hilen))
    rw [hxi, hgetD, hqv, hqs, sub_fin_fin]
    rfl
  have hdne : 0 < (jsMapIdx (fun i v => JsNum.sub v (s.getD i JsNum.nan)) 0 t).length :=
    List.length_pos.mpr (List.ne_nil_of_mem hd)
  obtain ⟨r, hr⟩ := foldl_add_fin _ 0 hdiff
  obtain ⟨qd, hqd⟩ := isFinite_iff.mp (hdiff d hd)
  rw [← hyd, hr, div_fin_pos _ _ hdne, hqd, sub_fin_fin]
  exact clamp12_fin_inClampRange _

/-- C3 witness: the bounded-output theorem applied to the concrete finite
pair s = [1, 2], t = [3, 4]; the first output entry is a finite value in
[-12, 12]. -/
theorem C3_matched_gains_bounded_witness :
    InClampRange ((V1.calculateMatchedGains [JsNum.fin 1, JsNum.fin 2]
        [JsNum.fin 3, JsNum.fin 4]).getD 0 JsNum.nan) := by
  have h := C3_matched_gains_bounded [JsNum.fin 1, JsNum.fin 2]
      [JsNum.fin 3, JsNum.fin 4] rfl
      (by intro x hx; fin_cases hx <;> rfl)
      (by intro x hx; fin_cases hx <;> rfl)
  have hres : V1.calculateMatchedGains [JsNum.fin 1, JsNum.fin 2] [JsNum.fin 3, JsNum.fin 4]
      = [JsNum.fin 0, JsNum.fin 0] := by
    norm_num [V1.calculateMatchedGains, jsMapIdx, JsNum.sub, JsNum.add, JsNum.neg,
      JsNum.div, JsNum.jmin, JsNum.jmax]
  exact h _ (by rw [hres]; exact List.mem_cons_self _ _)

/-- C4: in the revision-3 calculateMatchedGains (lines 1162-1179), every
non-finite per-band delta is replaced by zero and that zero participates in
the mean used for centering — the function coincides with the spec-worded
pipeline computeMatchSpec (zero-substituted deltas, plain mean over all
entries, centering, clamping) — and every output entry is a finite value in
[-12, 12], for all inputs. -/
theorem C4_nonfinite_deltas_zeroed (sourceSpec targetSpec : List JsNum) :
    V3.calculateMatchedGains sourceSpec targetSpec
        = V3.computeMatchSpec sourceSpec targetSpec
    ∧ ∀ y ∈ V3.calculateMatchedGains sourceSpec targetSpec, InClampRange y := by
  unfold V3.calculateMatchedGains V3.computeMatchSpec
  simp only
  set D := jsMapIdx (fun i s =>
    if (JsNum.sub (targetSpec.getD i JsNum.nan) s).isFinite
    then JsNum.sub (targetSpec.getD i JsNum.nan) s
    else JsNum.fin 0) 0 sourceSpec with hD
  have hfin : ∀ x ∈ D, x.isFinite = true := by
    rw [hD]; exact v3_diff_all_finite sourceSpec targetSpec
  have hfilter : D.filter (fun d => !d.isNaN) = D := by
    rw [List.filter_eq_self]
    intro a ha
    rw [finite_not_isNaN (hfin a ha)]
    rfl
  rw [hfilter]
  have hA := avg_of_finite D hfin
  obtain ⟨qa, hqa⟩ := isFinite_iff.mp hA
  have hmapeq : ∀ d ∈ D,
      JsNum.jmax (JsNum.fin (-12)) (JsNum.jmin (JsNum.fin 12)
        (if (JsNum.sub d (if 0 < D.length then
              JsNum.div (D.foldl JsNum.add (JsNum.fin 0)) (JsNum.fin D.length)
            else JsNum.fin 0)).isFinite
         then JsNum.sub d (if 0 < D.length then
              JsNum.div (D.foldl JsNum.add (JsNum.fin 0)) (JsNum.fin D.length)
            else JsNum.fin 0)
         else JsNum.fin 0))
      = clamp12 (JsNum.sub d (if 0 < D.length then
              JsNum.div (D.foldl JsNum.add (JsNum.fin 0)) (JsNum.fin D.length)
            else JsNum.fin 0)) := by
    intro d hd
    obtain ⟨qd, hqd⟩ := isFinite_iff.mp (hfin d hd)
    rw [hqd, hqa, sub_fin_fin]
    rfl
  constructor
  · exact List.map_congr_left hmapeq
  · intro y hy
    rw [List.mem_map] at hy
    obtain ⟨d, hd, hyd⟩ := hy
    rw [← hyd, hmapeq d hd]
    obtain ⟨qd, hqd⟩ := isFinite_iff.mp (hfin d hd)
    rw [hqd, hqa, sub_fin_fin]
    exact clamp12_fin_inClampRange _

/-- C4 witness: the theorem applied to the concrete pair source = [NaN, 0],
target = [0, 0]: the code output equals the spec pipeline output and the
first entry is a finite value in [-12, 12]. -/
theorem C4_nonfinite_deltas_zeroed_witness :
    V3.calculateMatchedGains [JsNum.nan, JsNum.fin 0] [JsNum.fin 0, JsNum.fin 0]
        = V3.computeMatchSpec [JsNum.nan, JsNum.fin 0] [JsNum.fin 0, JsNum.fin 0]
    ∧ InClampRange ((V3.calculateMatchedGains [JsNum.nan, JsNum.fin 0]
        [JsNum.fin 0, JsNum.fin 0]).getD 0 JsNum.nan) := by
  have h := C4_nonfinite_deltas_zeroed [JsNum.nan, JsNum.fin 0]
      [JsNum.fin 0, JsNum.fin 0]
  have hres : V3.calculateMatchedGains [JsNum.nan, JsNum.fin 0] [JsNum.fin 0, JsNum.fin 0]
      = [JsNum.fin 0, JsNum.fin 0] := by
    norm_num [V3.calculateMatchedGains, jsMapIdx, JsNum.sub, JsNum.add, JsNum.neg,
      JsNum.div, JsNum.jmin, JsNum.jmax, JsNum.isFinite, JsNum.isNaN, List.filter]
  exact ⟨h.1, h.2 _ (by rw [hres]; exact List.mem_cons_self _ _)⟩

/-- C5: on the concrete 3-band profiles source = [-10, -10, -10] and
target = [-10, -10, 2], the revision-1 calculateMatchedGains computes the
raw deltas [0, 0, 12], whose mean is 4, and returns the mean-centered,
clamp-unchanged result [-4, -4, 8]. -/
theorem C5_three_band_example :
    (jsMapIdx (fun i v =>
        JsNum.sub v (([JsNum.fin (-10), JsNum.fin (-10), JsNum.fin (-10)] : List JsNum).getD
          i JsNum.nan)) 0 [JsNum.fin (-10), JsNum.fin (-10), JsNum.fin 2]
        = [JsNum.fin 0, JsNum.fin 0, JsNum.fin 12])
    ∧ (JsNum.div (([JsNum.fin 0, JsNum.fin 0, JsNum.fin 12] : List JsNum).foldl
        JsNum.add (JsNum.fin 0)) (JsNum.fin 3) = JsNum.fin 4)
    ∧ V1.calculateMatchedGains
        [JsNum.fin (-10), JsNum.fin (-10), JsNum.fin (-10)]
        [JsNum.fin (-10), JsNum.fin (-10), JsNum.fin 2]
        = [JsNum.fin (-4), JsNum.fin (-4), JsNum.fin 8] := by
  refine ⟨?_, ?_, ?_⟩ <;>
    norm_num [V1.calculateMatchedGains, jsMapIdx, JsNum.sub, JsNum.add, JsNum.neg,
      JsNum.div, JsNum.jmin, JsNum.jmax]


/-- C1 amended: setEqGain stores the raw db value with no clamping — for an
initialized graph and a valid band index, the stored band-gain readback
equals db itself, even when db lies outside [-12, 12] (the original claim
said the stored value is clamp(db, -12, 12); see the counterexample). -/
theorem C1_set_gain_stores_raw (st : V1.EngineState) (i : ℕ) (db : ℚ)
    (hinit : st.ctxInitialized = true) (hi : i < st.filterGains.length) :
    (V1.setEqGain st i db).filterGains.getD i 0 = db := by
  unfold V1.setEqGain
  rw [if_pos ⟨hi, hinit⟩, List.getD_eq_getElem?_getD,
    List.getElem?_set_self (by simpa using hi)]
  rfl

/-- C1 witness: on the freshly initialized graph, setEqGain(0, 24) reads
back 24. -/
theorem C1_set_gain_stores_raw_witness :
    (V1.initContext V1.initialState).ctxInitialized = true
    ∧ 0 < (V1.initContext V1.initialState).filterGains.length
    ∧ (V1.setEqGain (V1.initContext V1.initialState) 0 24).filterGains.getD 0 0 = 24 :=
  ⟨rfl, by decide, C1_set_gain_stores_raw _ 0 24 rfl (by decide)⟩

/-- C1 counterexample: with db = 24 on the initialized graph, the stored
gain reads back 24, while clamp(24, -12, 12) = 12 — the readback is neither
the clamped value nor inside [-12, 12]. -/
theorem C1_counterexample_gain_not_clamped :
    (V1.setEqGain (V1.initContext V1.initialState) 0 24).filterGains.getD 0 0 = 24
    ∧ clampQ (-12) 12 24 = 12
    ∧ (V1.setEqGain (V1.initContext V1.initialState) 0 24).filterGains.getD 0 0
        ≠ clampQ (-12) 12 24
    ∧ ¬ (V1.setEqGain (V1.initContext V1.initialState) 0 24).filterGains.getD 0 0 ≤ 12 := by
  have h1 : (V1.setEqGain (V1.initContext V1.initialState) 0 24).filterGains.getD 0 0
      = 24 := by
    norm_num [V1.setEqGain, V1.initContext, V1.initialState, V1.EQ_FREQUENCIES]
  have h2 : clampQ (-12) 12 24 = 12 := by
    norm_num [clampQ, min_def, max_def]
  refine ⟨h1, h2, ?_, ?_⟩
  · rw [h1, h2]; norm_num
  · rw [h1]; norm_num

/-- C2: after play(A) then play(B) on an initialized engine without an
intervening stop, exactly one native playback resource is attached and the
session is B's (mode tag and payload match B); any source node attached for
A has been stopped and disconnected and is not the live source; no stop
timer is pending; and the playback-state query, a single boolean, reports
playing — it cannot report two sessions. -/
theorem C2_second_play_single_session (st : V1.EngineState)
    (hinit : st.ctxInitialized = true) (a b : V1.PlayRequest) :
    V1.activeSessions (V1.play b (V1.play a st)) = 1
    ∧ V1.sessionMatches b (V1.play b (V1.play a st))
    ∧ (V1.play b (V1.play a st)).stopTimeout = none
    ∧ V1.getIsPlaying (V1.play b (V1.play a st)) = true
    ∧ (∀ sid, (V1.play a st).source = some sid →
        sid ∈ (V1.play b (V1.play a st)).stoppedSources
        ∧ sid ∈ (V1.play b (V1.play a st)).disconnectedSources
        ∧ (V1.play b (V1.play a st)).source ≠ some sid) := by
  obtain ⟨h1, h2, h3, h4, h5, h6, h7, h8⟩ := V1.play_establishes a st hinit
  obtain ⟨g1, g2, g3, g4, g5, g6, g7, g8⟩ := V1.play_establishes b (V1.play a st) h1
  refine ⟨g4, g5, g2, g3, ?_⟩
  intro sid hsid
  obtain ⟨hm1, hm2⟩ := g7 sid hsid
  refine ⟨hm1, hm2, fun hcontra => ?_⟩
  obtain ⟨hle, -⟩ := g8 sid hcontra
  obtain ⟨-, hnext⟩ := h8 sid hsid
  omega

/-- C2 witness: two consecutive buffer plays from the freshly initialized
engine leave exactly one active session. -/
theorem C2_second_play_single_session_witness :
    (V1.initContext V1.initialState).ctxInitialized = true
    ∧ V1.activeSessions (V1.play (V1.PlayRequest.bufferReq ⟨3⟩ 0 1 [] 1 0)
        (V1.play (V1.PlayRequest.bufferReq ⟨2⟩ 0 1 [] 1 0)
          (V1.initContext V1.initialState))) = 1 :=
  ⟨rfl, (C2_second_play_single_session _ rfl _ _).1⟩

/-- C6: a pending stop teardown is cancelled at most once and never fires
late: a second stop removes the first pending timer and leaves exactly the
fresh one scheduled (firing the first timer id is then a no-op), and a play
issued during the fade window clears the pending teardown entirely, so
firing the stale timer after the new session has started changes nothing. -/
theorem C6_stop_timer_cancel (st : V1.EngineState)
    (hinit : st.ctxInitialized = true)
    (hwf : st.activeTimers = st.stopTimeout.elim [] (fun t => [t]))
    (f f2 : ℚ) (req : V1.PlayRequest) :
    (V1.stop st f).stopTimeout = some st.nextTimerId
    ∧ (V1.stop (V1.stop st f) f2).activeTimers = [st.nextTimerId + 1]
    ∧ st.nextTimerId ∉ (V1.stop (V1.stop st f) f2).activeTimers
    ∧ V1.fireStopTimer (V1.stop (V1.stop st f) f2) st.nextTimerId
        = V1.stop (V1.stop st f) f2
    ∧ (V1.play req (V1.stop st f)).activeTimers = []
    ∧ V1.fireStopTimer (V1.play req (V1.stop st f)) st.nextTimerId
        = V1.play req (V1.stop st f) := by
  have hat1 : (V1.stop st f).activeTimers = [st.nextTimerId] := by
    rw [V1.stop_activeTimers]
    cases h : st.stopTimeout <;> rw [h] at hwf <;> simp [hwf]
  have hat2 : (V1.stop (V1.stop st f) f2).activeTimers = [st.nextTimerId + 1] := by
    rw [V1.stop_activeTimers, V1.stop_stopTimeout, V1.stop_nextTimerId, hat1]
    simp
  have hnotmem : st.nextTimerId ∉ (V1.stop (V1.stop st f) f2).activeTimers := by
    rw [hat2]; simp
  have hinit1 : (V1.stop st f).ctxInitialized = true := by
    rw [V1.stop_ctxInitialized]; exact hinit
  obtain ⟨p1, p2, p3, p4, p5, p6, p7, p8⟩ := V1.play_establishes req (V1.stop st f) hinit1
  have hplayat : (V1.play req (V1.stop st f)).activeTimers = [] := by
    rw [p6, V1.immediateStop_activeTimers, V1.stop_stopTimeout]
    simp [hat1]
  have hnotmem2 : st.nextTimerId ∉ (V1.play req (V1.stop st f)).activeTimers := by
    rw [hplayat]; simp
  refine ⟨V1.stop_stopTimeout st f, hat2, hnotmem, ?_, hplayat, ?_⟩
  · unfold V1.fireStopTimer
    rw [if_neg hnotmem]
  · unfold V1.fireStopTimer
    rw [if_neg hnotmem2]

/-- C6 witness: from the freshly initialized engine, stop(1) schedules
timer 0, and a buffer play issued before the fade completes leaves no
pending teardown timer. -/
theorem C6_stop_timer_cancel_witness :
    (V1.stop (V1.initContext V1.initialState) 1).stopTimeout = some 0
    ∧ (V1.play (V1.PlayRequest.bufferReq ⟨2⟩ 0 1 [] 1 0)
        (V1.stop (V1.initContext V1.initialState) 1)).activeTimers = [] := by
  have h := C6_stop_timer_cancel (V1.initContext V1.initialState) rfl rfl 1 1
      (V1.PlayRequest.bufferReq ⟨2⟩ 0 1 [] 1 0)
  exact ⟨h.1, h.2.2.2.2.1⟩

/-- C7 amended: in lib/audioEngine.ts revision 1, a playing buffer-mode
session reports (processing-context clock - session start) + offset with no
clamping to the buffer duration, and a stream-mode session reports the
stream element's native position; the clamp to the duration exists only in
the src/unnamed/part_004 variant of getCurrentTime. -/
theorem C7_current_time_formula (st : V1.EngineState)
    (hinit : st.ctxInitialized = true) :
    (st.playbackMode = V1.PlaybackMode.buffer → st.isPlayingInternal = true →
      V1.getCurrentTime st = st.ctxTime - st.startTime + st.offsetTime)
    ∧ (st.playbackMode = V1.PlaybackMode.stream →
      V1.getCurrentTime st = st.mediaTime)
    ∧ (∀ p : P4.State, p.isPlayingInternal = true → p.ctxInitialized = true →
        P4.getCurrentTime p ≤ p.currentBuffer.getD 0) := by
  refine ⟨?_, ?_, ?_⟩
  · intro hmode hplay
    unfold V1.getCurrentTime
    rw [if_neg (by simp [hinit]), if_neg (by simp [hmode]), if_pos hplay]
  · intro hmode
    unfold V1.getCurrentTime
    rw [if_neg (by simp [hinit]), if_pos hmode]
  · intro p hp hc
    unfold P4.getCurrentTime
    rw [if_neg (by simp [hp, hc])]
    exact min_le_right _ _

/-- C7 witness: the buffer-mode formula instantiated on a freshly started
2 second buffer session, and the part_004 clamp instantiated on a playing
state whose raw position 5 exceeds the 2 second duration. -/
theorem C7_current_time_formula_witness :
    V1.getCurrentTime (V1.playBuffer (V1.initContext V1.initialState) ⟨2⟩ 0 1 [] 1 0)
      = (V1.playBuffer (V1.initContext V1.initialState) ⟨2⟩ 0 1 [] 1 0).ctxTime
        - (V1.playBuffer (V1.initContext V1.initialState) ⟨2⟩ 0 1 [] 1 0).startTime
        + (V1.playBuffer (V1.initContext V1.initialState) ⟨2⟩ 0 1 [] 1 0).offsetTime
    ∧ P4.getCurrentTime ⟨true, true, 0, 5, 0, some 2⟩ ≤ (some (2 : ℚ)).getD 0 := by
  have h := C7_current_time_formula
      (V1.playBuffer (V1.initContext V1.initialState) ⟨2⟩ 0 1 [] 1 0) rfl
  exact ⟨h.1 rfl rfl, h.2.2 ⟨true, true, 0, 5, 0, some 2⟩ rfl rfl⟩

/-- C7 counterexample: on revision 1, after playing a 2 second buffer from
offset 0 and letting the context clock advance by 5, getCurrentTime returns
5 while getDuration returns 2 — the reported position exceeds the duration,
so the claimed clamp to duration does not exist in this getCurrentTime. -/
theorem C7_counterexample_no_duration_clamp :
    V1.getCurrentTime (V1.tick (V1.playBuffer (V1.initContext V1.initialState)
        ⟨2⟩ 0 1 [] 1 0) 5) = 5
    ∧ V1.getDuration (V1.tick (V1.playBuffer (V1.initContext V1.initialState)
        ⟨2⟩ 0 1 [] 1 0) 5) = 2
    ∧ ¬ (V1.getCurrentTime (V1.tick (V1.playBuffer (V1.initContext V1.initialState)
          ⟨2⟩ 0 1 [] 1 0) 5)
        ≤ V1.getDuration (V1.tick (V1.playBuffer (V1.initContext V1.initialState)
          ⟨2⟩ 0 1 [] 1 0) 5)) := by
  have hne : ¬ (V1.PlaybackMode.buffer = V1.PlaybackMode.stream) := by decide
  refine ⟨?_, ?_, ?_⟩ <;>
    norm_num [hne, V1.getCurrentTime, V1.getDuration, V1.tick, V1.playBuffer,
      V1.initContext, V1.initialState, V1.immediateStop, V1.setVolume,
      V1.setReverbDry, V1.setReverbWet, V1.applyEqGains, V1.EQ_FREQUENCIES]

/-- C8 counterexample: on desktop (isMobile = false) the getSpectrum loop
body awaits nothing: the iteration for sampled offset 0 contains zero yield
events and the whole 40-offset trace contains zero yield events, refuting
the claim of at least one awaited yield per sampled offset on every device
class. -/
theorem C8_counterexample_desktop_never_yields :
    (V1.spectrumIterEvents false 0).countP V1.isYield = 0
    ∧ 0 < V1.spectrumNumSamples false
    ∧ (V1.getSpectrumTrace false).countP V1.isYield = 0 := by
  refine ⟨by decide, by decide, by decide⟩

/-- C8 amended: the yield-per-offset guarantee holds exactly on the mobile
path: for every sampled offset the mobile loop body contains at least one
awaited yield (a requestAnimationFrame await, plus an extra setTimeout
await every 5 segments), while the desktop loop body contains none. -/
theorem C8_yield_per_offset_mobile_only (i : ℕ) :
    1 ≤ (V1.spectrumIterEvents true i).countP V1.isYield
    ∧ (V1.spectrumIterEvents false i).countP V1.isYield = 0 := by
  constructor
  · by_cases h : i % 5 = 0 <;>
      simp [V1.spectrumIterEvents, h, V1.isYield, List.countP_cons, List.countP_append]
  · simp [V1.spectrumIterEvents, V1.isYield, List.countP_cons]

/-- C9 counterexample: playBuffer invoked on the pristine uninitialized
module state is a silent no-op: the state is unchanged, the engine stays
uninitialized, the playing flag stays false and no session is attached —
play does not lazily initialize the engine. -/
theorem C9_counterexample_play_before_init :
    V1.play (V1.PlayRequest.bufferReq ⟨2⟩ 0 1 [] 1 0) V1.initialState = V1.initialState
    ∧ V1.initialState.ctxInitialized = false
    ∧ V1.getIsPlaying (V1.play (V1.PlayRequest.bufferReq ⟨2⟩ 0 1 [] 1 0)
        V1.initialState) = false
    ∧ V1.activeSessions (V1.play (V1.PlayRequest.bufferReq ⟨2⟩ 0 1 [] 1 0)
        V1.initialState) = 0 :=
  ⟨rfl, rfl, rfl, rfl⟩

/-- C9 amended: calling playBuffer or playStream before initContext is a
silent no-op — the state is returned unchanged, so the engine is not lazily
initialized and no playback session starts. -/
theorem C9_play_uninitialized_noop (st : V1.EngineState) (req : V1.PlayRequest)
    (h : st.ctxInitialized = false) : V1.play req st = st := by
  cases req <;> simp [V1.play, V1.playBuffer, V1.playStream, h]

/-- C9 witness: the no-op theorem applied to a stream play on the pristine
uninitialized state. -/
theorem C9_play_uninitialized_noop_witness :
    V1.initialState.ctxInitialized = false
    ∧ V1.play (V1.PlayRequest.streamReq "u" 0 1 [] 1 0) V1.initialState
        = V1.initialState :=
  ⟨rfl, C9_play_uninitialized_noop _ _ rfl⟩

/-- C10: immediately after stop(fadeSeconds) returns and before the
teardown timer fires, getIsPlaying() is already false while the source node
is still attached and the playback mode tag still reads 'buffer', not yet
'none'. -/
theorem C10_stop_immediately_not_playing (st : V1.EngineState) (fadeTime : ℚ)
    (sid : ℕ) (hmode : st.playbackMode = V1.PlaybackMode.buffer)
    (hsrc : st.source = some sid) :
    V1.getIsPlaying (V1.stop st fadeTime) = false
    ∧ (V1.stop st fadeTime).source = some sid
    ∧ (V1.stop st fadeTime).playbackMode = V1.PlaybackMode.buffer
    ∧ (V1.stop st fadeTime).playbackMode ≠ V1.PlaybackMode.none := by
  refine ⟨?_, ?_, ?_, ?_⟩
  · show (V1.stop st fadeTime).isPlayingInternal = false
    simp
  · simp [hsrc]
  · simp [hmode]
  · simp [hmode]

/-- C10 witness: stopping a freshly started 2 second buffer session with a
0.1 s fade reports not-playing while source node 0 is still attached. -/
theorem C10_stop_immediately_not_playing_witness :
    V1.getIsPlaying (V1.stop (V1.playBuffer (V1.initContext V1.initialState)
        ⟨2⟩ 0 1 [] 1 0) (1/10)) = false
    ∧ (V1.stop (V1.playBuffer (V1.initContext V1.initialState)
        ⟨2⟩ 0 1 [] 1 0) (1/10)).source = some 0 := by
  have h := C10_stop_immediately_not_playing
      (V1.playBuffer (V1.initContext V1.initialState) ⟨2⟩ 0 1 [] 1 0) (1/10) 0 rfl rfl
  exact ⟨h.1, h.2.1⟩
